import Mathlib

/-!
Shallow embedding of the DoomScrollDoctor monitor (src/monitor.py) together
with the shutdown paths of the two drivers (the KeyboardInterrupt handler in
the main block of monitor.py and tray_app.quit_app).

Modelling conventions:
  * Instants are rational numbers of minutes since an arbitrary epoch; the
    Python code computes `(a - b).total_seconds() / 60`, which we model as
    exact rational subtraction.
  * A calendar date is the integer day index of an instant, `(t / 1440).floor`
    (1440 minutes per day), mirroring `datetime.now().date()`.
  * `detect_current_site` reads the foreground window title through an
    OS-specific probe, so its result is passed to `update_session` as an
    input of type `Option String` instead of being computed.
  * Python truthiness of the optional site string is modelled by
    `truthySite`: `None` and the empty string are falsy, which matters for
    the guards `if detected_site and not self.current_site`,
    `elif self.current_site ...` and `if self.current_site and
    self.session_start`.
  * `daily_stats` is a Python dict `site -> float`; we model it as an
    association list in insertion order (a fresh key is appended at the end,
    an existing key is updated in place), with `statsGet`/`statsAdd` the two
    access patterns the code uses.
  * `self.tracked_sites[site]` is a direct dict index; at every call site of
    `check_for_nudge` and `get_daily_summary` the key was produced by
    `detect_current_site`, hence is a key of `tracked_sites`, so the
    `Option.getD` junk default below is never consulted on those paths.
  * The notifier and the event log are fire-and-forget sinks with no effect
    on monitor state, so they are not modelled.
-/

namespace DoomScroll

/-- Severity of a nudge event: the strings "info" / "warning" in the source. -/
inductive Severity
  | info
  | warning
deriving DecidableEq, Repr

/-- Which of the three message templates of `check_for_nudge` (or the block
message) the event carries. -/
inductive MsgKind
  | exceededLimit
  | runningLow
  | friendlyReminder
deriving DecidableEq, Repr

/-- An event returned by `check_for_nudge`: either the BLOCK dict or the NUDGE
dict of the source, with the numeric payload fields it embeds. -/
inductive Event
  | block (site : String) (totalToday limit : ℚ)
  | nudge (severity : Severity) (msg : MsgKind) (site : String)
      (sessionTime totalToday limit : ℚ)
deriving DecidableEq, Repr

/-- Per-site configuration dict: `daily_limit`, `nudge_interval`,
`hard_block`. -/
structure SiteConfig where
  daily_limit : ℚ
  nudge_interval : ℚ
  hard_block : Bool
deriving DecidableEq, Repr

/-- The configuration as far as the monitor logic reads it: the
`tracked_sites` mapping.  The `work_hours` block of the JSON file is stored
but never read by any code path, so it is not modelled. -/
structure Config where
  tracked_sites : List (String × SiteConfig)
deriving DecidableEq, Repr

/-- The default configuration written by `load_config` when no file exists. -/
def defaultConfig : Config :=
  { tracked_sites :=
      [("youtube.com", ⟨60, 15, false⟩),
       ("reddit.com", ⟨30, 10, false⟩),
       ("twitter.com", ⟨30, 10, false⟩),
       ("facebook.com", ⟨30, 10, false⟩)] }

/-- `load_config`: if the config file exists its parsed content is used as-is,
otherwise the default config is written and used.  The source performs no
validation of the loaded values. -/
def load_config (file : Option Config) : Config :=
  file.getD defaultConfig

/-- Day index of an instant, modelling `datetime.now().date()`. -/
def dateOf (t : ℚ) : ℤ :=
  (t / 1440).floor

/-- Python truthiness of an optional site string: `None` and `""` are falsy. -/
def truthySite : Option String → Bool
  | none => false
  | some s => s != ""

/-- The mutable state of an `ActivityMonitor` instance. -/
structure Monitor where
  tracked_sites : List (String × SiteConfig)
  current_site : Option String
  session_start : Option ℚ
  last_nudge_time : Option ℚ
  daily_stats : List (String × ℚ)
  last_reset : ℤ
deriving DecidableEq, Repr

/-- `ActivityMonitor.__init__`: load the config and start with no session, no
nudge history, empty daily stats and `last_reset = datetime.now().date()`. -/
def initMonitor (file : Option Config) (now : ℚ) : Monitor :=
  { tracked_sites := (load_config file).tracked_sites
    current_site := none
    session_start := none
    last_nudge_time := none
    daily_stats := []
    last_reset := dateOf now }

/-- `self.daily_stats.get(site, 0)`. -/
def statsGet (stats : List (String × ℚ)) (site : String) : ℚ :=
  (stats.lookup site).getD 0

/-- The update `if site not in daily_stats: daily_stats[site] = 0` followed by
`daily_stats[site] += d`: update in place when present, append when absent. -/
def statsAdd (stats : List (String × ℚ)) (site : String) (d : ℚ) :
    List (String × ℚ) :=
  if (stats.lookup site).isSome then
    stats.map (fun p => if p.1 = site then (p.1, p.2 + d) else p)
  else
    stats ++ [(site, d)]

/-- `ActivityMonitor._end_session`: when a site and a start instant are both
set (and the site string is truthy), fold the raw signed duration `now -
session_start` into `daily_stats` and clear both fields; otherwise do
nothing.  Note that the duration is added without any clamping. -/
def end_session (m : Monitor) (now : ℚ) : Monitor :=
  match m.current_site, m.session_start with
  | some site, some start =>
      if site = "" then m
      else
        { m with
            daily_stats := statsAdd m.daily_stats site (now - start)
            current_site := none
            session_start := none }
  | _, _ => m

/-- The local `minutes_since_last_nudge` of `check_for_nudge`: the sentinel
999 ("Default to large number") when `last_nudge_time` is unset, otherwise the
elapsed minutes since the last nudge. -/
def minutes_since_last (m : Monitor) (now : ℚ) : ℚ :=
  match m.last_nudge_time with
  | none => 999
  | some t => now - t

/-- `ActivityMonitor.check_for_nudge`, returning the updated monitor (the only
field it ever writes is `last_nudge_time`) together with the optional event.
The BLOCK branch is checked first; the NUDGE gate uses the sentinel 999 for
`minutes_since_last_nudge` when no nudge has fired yet. -/
def check_for_nudge (m : Monitor) (now : ℚ) : Monitor × Option Event :=
  match m.current_site, m.session_start with
  | some site, some start =>
      if site = "" then (m, none)
      else
        let site_config := (m.tracked_sites.lookup site).getD ⟨0, 0, false⟩
        let current_session_minutes := now - start
        let total_today := statsGet m.daily_stats site + current_session_minutes
        let daily_limit := site_config.daily_limit
        let nudge_interval := site_config.nudge_interval
        if total_today ≥ daily_limit ∧ site_config.hard_block = true then
          (m, some (Event.block site total_today daily_limit))
        else
          if current_session_minutes ≥ nudge_interval ∧
              minutes_since_last m now ≥ nudge_interval then
            let time_remaining := daily_limit - total_today
            let ev :=
              if time_remaining ≤ 0 then
                Event.nudge .warning .exceededLimit site
                  current_session_minutes total_today daily_limit
              else if time_remaining ≤ 10 then
                Event.nudge .warning .runningLow site
                  current_session_minutes total_today daily_limit
              else
                Event.nudge .info .friendlyReminder site
                  current_session_minutes total_today daily_limit
            ({ m with last_nudge_time := some now }, some ev)
          else (m, none)
  | _, _ => (m, none)

/-- The daily-stats reset at the top of `update_session`: when the current
date differs from `last_reset`, clear `daily_stats` and adopt the new date. -/
def rolloverCheck (m : Monitor) (now : ℚ) : Monitor :=
  if dateOf now ≠ m.last_reset then
    { m with daily_stats := [], last_reset := dateOf now }
  else m

/-- `ActivityMonitor.update_session`, with the detected site passed in (see
the module docstring).  Returns the updated monitor and the optional event
produced this poll cycle. -/
def update_session (m0 : Monitor) (detected_site : Option String) (now : ℚ) :
    Monitor × Option Event :=
  let m := rolloverCheck m0 now
  if truthySite detected_site = true ∧ truthySite m.current_site = false then
    ({ m with current_site := detected_site, session_start := some now }, none)
  else if truthySite m.current_site = true ∧ detected_site ≠ m.current_site then
    let m1 := end_session m now
    if truthySite detected_site = true then
      ({ m1 with current_site := detected_site, session_start := some now },
        none)
    else (m1, none)
  else if truthySite m.current_site = true then
    check_for_nudge m now
  else (m, none)

/-- One entry of the `get_daily_summary` projection. -/
structure SiteSummary where
  time_spent : ℚ
  limit : ℚ
  percentage : ℚ
  over_limit : Bool
deriving DecidableEq, Repr

/-- Result of `get_daily_summary`. -/
structure Summary where
  date : ℤ
  sites : List (String × SiteSummary)
deriving DecidableEq, Repr

/-- `ActivityMonitor.get_daily_summary`: a pure projection of `daily_stats`
and the per-site limits.  It performs no rollover check and does not read the
open session. -/
def get_daily_summary (m : Monitor) (now : ℚ) : Summary :=
  { date := dateOf now
    sites := m.daily_stats.map (fun p =>
      let limit := ((m.tracked_sites.lookup p.1).getD ⟨0, 0, false⟩).daily_limit
      (p.1,
        { time_spent := p.2
          limit := limit
          percentage := if limit > 0 then p.2 / limit * 100 else 0
          over_limit := decide (p.2 > limit) })) }

/-- The shutdown path of both drivers (the KeyboardInterrupt handler in the
main block of monitor.py, and tray_app.quit_app): each produces
`get_daily_summary` of the current state and stops.  Neither closes an open
session first; no flush operation exists in the code base. -/
def shutdown_summary (m : Monitor) (now : ℚ) : Summary :=
  get_daily_summary m now

/-- States reachable from a fresh `ActivityMonitor` by any sequence of poll
cycles, with arbitrary (possibly non-monotone) clock readings. -/
inductive Reachable : Monitor → Prop
  | init : ∀ file now, Reachable (initMonitor file now)
  | step : ∀ m d now, Reachable m → Reachable (update_session m d now).1

/-- States reachable by poll cycles whose clock readings never go backwards;
the second component records the instant of the last operation. -/
inductive ReachableAt : Monitor → ℚ → Prop
  | init : ∀ file now, ReachableAt (initMonitor file now) now
  | step : ∀ m t d now, ReachableAt m t → t ≤ now →
      ReachableAt (update_session m d now).1 now

/-- Whether an optional event is a NUDGE event. -/
def isNudge : Option Event → Bool
  | some (Event.nudge _ _ _ _ _ _) => true
  | _ => false

/-! Concrete monitor states and configurations used by the per-claim witnesses
and counterexamples below.  Each is obtained by running the embedded
operations on explicit inputs. -/

/-- A loaded configuration whose only site has `nudge_interval = 1000`,
larger than the 999 sentinel of `check_for_nudge`. -/
def cfgC1 : Config :=
  { tracked_sites := [("youtube.com", ⟨60, 1000, false⟩)] }

/-- Open a session on that site at instant 0, starting from a fresh monitor
loaded with `cfgC1`. -/
def mC1 : Monitor :=
  (update_session (initMonitor (some cfgC1) 0) (some "youtube.com") 0).1

/-- A loaded configuration with `hard_block = true` on youtube.com. -/
def cfgC2 : Config :=
  { tracked_sites := [("youtube.com", ⟨60, 15, true⟩)] }

/-- Scenario B of the spec with `hard_block = true`: 55 minutes already
accumulated today, a session open since instant 0. -/
def mC2 : Monitor :=
  { tracked_sites := cfgC2.tracked_sites
    current_site := some "youtube.com"
    session_start := some 0
    last_nudge_time := none
    daily_stats := [("youtube.com", 55)]
    last_reset := 0 }

/-- Open a session on youtube.com at instant 10 from a fresh monitor. -/
def mC3a : Monitor :=
  (update_session (initMonitor none 10) (some "youtube.com") 10).1

/-- Then poll at instant 4, after a backward clock jump: detection reports no
site, so the session closes with duration 4 - 10 = -6. -/
def mC3b : Monitor :=
  (update_session mC3a none 4).1

/-- Close a well-formed ten-minute session: open at 0, close at 10. -/
def mC3c : Monitor :=
  (update_session (update_session (initMonitor none 0)
    (some "youtube.com") 0).1 none 10).1

/-- Open youtube.com at 0 from a fresh default-config monitor. -/
def mC4a : Monitor :=
  (update_session (initMonitor none 0) (some "youtube.com") 0).1

/-- Poll at 20 on the same site: the first nudge fires (session 20 >= 15),
setting `last_nudge_time = 20`. -/
def mC4b : Monitor :=
  (update_session mC4a (some "youtube.com") 20).1

/-- Poll at 21 with reddit.com detected: the youtube session closes and a
reddit session opens.  `last_nudge_time` keeps the value 20. -/
def mC4c : Monitor :=
  (update_session mC4b (some "reddit.com") 21).1

/-- Open youtube.com at 0, close at 30: `daily_stats` holds 30 minutes for
youtube.com, `last_reset` is day 0. -/
def mC5 : Monitor :=
  (update_session (update_session (initMonitor none 0)
    (some "youtube.com") 0).1 none 30).1

/-- Close a 5-minute youtube session (0 to 5), then reopen youtube at 8. -/
def mC6 : Monitor :=
  (update_session (update_session (update_session (initMonitor none 0)
    (some "youtube.com") 0).1 none 5).1 (some "youtube.com") 8).1

/-- A fresh monitor with a session opened on youtube.com at instant 0 and
nothing accumulated: the state at shutdown in the C8 counterexample. -/
def mC8 : Monitor :=
  (update_session (initMonitor none 0) (some "youtube.com") 0).1

/-- A configuration with a zero daily limit and a negative nudge interval. -/
def badConfig : Config :=
  { tracked_sites := [("youtube.com", ⟨0, -5, false⟩)] }

/-! Helper lemmas about the embedded operations. -/

theorem dateOf_eq_zero (t : ℚ) (h0 : 0 ≤ t) (h1 : t < 1440) : dateOf t = 0 := by
  unfold dateOf
  have h : (t / 1440 : ℚ).floor = ⌊(t / 1440 : ℚ)⌋ := rfl
  rw [h, Int.floor_eq_zero_iff, Set.mem_Ico]
  constructor
  · positivity
  · rw [div_lt_one (by norm_num)]
    linarith

theorem dateOf_eq_one (t : ℚ) (h0 : 1440 ≤ t) (h1 : t < 2880) : dateOf t = 1 := by
  unfold dateOf
  have h : (t / 1440 : ℚ).floor = ⌊(t / 1440 : ℚ)⌋ := rfl
  rw [h, Int.floor_eq_iff]
  constructor
  · rw [le_div_iff (by norm_num : (0:ℚ) < 1440)]
    push_cast
    linarith
  · rw [div_lt_iff (by norm_num : (0:ℚ) < 1440)]
    push_cast
    linarith

theorem lookup_map_pair {β γ : Type} (l : List (String × β))
    (f : String → β → γ) (k : String) :
    (l.map (fun p => (p.1, f p.1 p.2))).lookup k = (l.lookup k).map (f k) := by
  induction l with
  | nil => rfl
  | cons a t ih =>
      rcases a with ⟨a1, a2⟩
      by_cases h : a1 = k
      · subst h
        simp [List.lookup]
      · have hb : (k == a1) = false := beq_false_of_ne (Ne.symm h)
        simp [List.lookup, hb, ih]

theorem lookup_append_single {β : Type} (l : List (String × β)) (k : String)
    (v : β) (h : l.lookup k = none) : (l ++ [(k, v)]).lookup k = some v := by
  induction l with
  | nil => simp [List.lookup]
  | cons a t ih =>
      rcases a with ⟨a1, a2⟩
      by_cases hk : a1 = k
      · subst hk
        simp [List.lookup] at h
      · have hb : (k == a1) = false := beq_false_of_ne (Ne.symm hk)
        simp only [List.cons_append, List.lookup, hb] at h ⊢
        exact ih h

theorem lookup_some_mem {β : Type} (l : List (String × β)) (k : String)
    (v : β) (h : l.lookup k = some v) : (k, v) ∈ l := by
  induction l with
  | nil => simp [List.lookup] at h
  | cons a t ih =>
      rcases a with ⟨a1, a2⟩
      by_cases hk : a1 = k
      · subst hk
        simp only [List.lookup, beq_self_eq_true] at h
        rw [Option.some.injEq] at h
        rw [← h]
        exact List.mem_cons_self _ _
      · have hb : (k == a1) = false := beq_false_of_ne (Ne.symm hk)
        simp only [List.lookup, hb] at h
        exact List.mem_cons_of_mem _ (ih h)

theorem statsAdd_eq_map (stats : List (String × ℚ)) (site : String) (d : ℚ)
    (h : (stats.lookup site).isSome) :
    statsAdd stats site d =
      stats.map (fun p => (p.1, if p.1 = site then p.2 + d else p.2)) := by
  unfold statsAdd
  rw [if_pos h]
  refine List.map_congr_left (fun p _ => ?_)
  by_cases hp : p.1 = site
  · simp [hp]
  · simp [hp]

theorem statsGet_statsAdd_self (stats : List (String × ℚ)) (site : String)
    (d : ℚ) : statsGet (statsAdd stats site d) site = statsGet stats site + d := by
  unfold statsGet
  by_cases h : (stats.lookup site).isSome
  · rw [statsAdd_eq_map stats site d h]
    rw [lookup_map_pair stats (fun s v => if s = site then v + d else v) site]
    rcases ho : stats.lookup site with _ | v
    · rw [ho] at h
      simp at h
    · simp
  · have hnone : stats.lookup site = none := by
      rcases ho : stats.lookup site with _ | v
      · rfl
      · rw [ho] at h
        simp at h
    unfold statsAdd
    rw [if_neg (by simp [hnone]), lookup_append_single stats site d hnone, hnone]
    simp

theorem statsAdd_nonneg (stats : List (String × ℚ)) (site : String) (d : ℚ)
    (hs : ∀ p ∈ stats, 0 ≤ p.2) (hd : 0 ≤ d) :
    ∀ p ∈ statsAdd stats site d, 0 ≤ p.2 := by
  intro p hp
  unfold statsAdd at hp
  split at hp
  · rw [List.mem_map] at hp
    obtain ⟨q, hq, hqe⟩ := hp
    by_cases hqs : q.1 = site
    · rw [if_pos hqs] at hqe
      have := hs q hq
      rw [← hqe]
      dsimp only
      linarith
    · rw [if_neg hqs] at hqe
      rw [← hqe]
      exact hs q hq
  · rw [List.mem_append] at hp
    rcases hp with hp | hp
    · exact hs p hp
    · rw [List.mem_singleton] at hp
      rw [hp]
      exact hd

theorem rolloverCheck_tracked (m : Monitor) (now : ℚ) :
    (rolloverCheck m now).tracked_sites = m.tracked_sites := by
  unfold rolloverCheck
  split <;> rfl

theorem rolloverCheck_current (m : Monitor) (now : ℚ) :
    (rolloverCheck m now).current_site = m.current_site := by
  unfold rolloverCheck
  split <;> rfl

theorem rolloverCheck_start (m : Monitor) (now : ℚ) :
    (rolloverCheck m now).session_start = m.session_start := by
  unfold rolloverCheck
  split <;> rfl

theorem rolloverCheck_nudge_time (m : Monitor) (now : ℚ) :
    (rolloverCheck m now).last_nudge_time = m.last_nudge_time := by
  unfold rolloverCheck
  split <;> rfl

theorem rolloverCheck_last_reset (m : Monitor) (now : ℚ) :
    (rolloverCheck m now).last_reset = dateOf now := by
  unfold rolloverCheck
  split
  · rfl
  · rename_i h
    rw [not_not] at h
    exact h.symm

theorem rolloverCheck_eq_self (m : Monitor) (now : ℚ)
    (h : dateOf now = m.last_reset) : rolloverCheck m now = m := by
  unfold rolloverCheck
  rw [if_neg (by simp [h])]

theorem end_session_tracked (m : Monitor) (now : ℚ) :
    (end_session m now).tracked_sites = m.tracked_sites := by
  unfold end_session
  split
  · split <;> rfl
  · rfl

theorem end_session_nudge_time (m : Monitor) (now : ℚ) :
    (end_session m now).last_nudge_time = m.last_nudge_time := by
  unfold end_session
  split
  · split <;> rfl
  · rfl

theorem end_session_last_reset (m : Monitor) (now : ℚ) :
    (end_session m now).last_reset = m.last_reset := by
  unfold end_session
  split
  · split <;> rfl
  · rfl

theorem check_state_tracked (m : Monitor) (now : ℚ) :
    (check_for_nudge m now).1.tracked_sites = m.tracked_sites := by
  unfold check_for_nudge
  split
  · dsimp only
    split_ifs <;> rfl
  · rfl

theorem check_state_current (m : Monitor) (now : ℚ) :
    (check_for_nudge m now).1.current_site = m.current_site := by
  unfold check_for_nudge
  split
  · dsimp only
    split_ifs <;> rfl
  · rfl

theorem check_state_start (m : Monitor) (now : ℚ) :
    (check_for_nudge m now).1.session_start = m.session_start := by
  unfold check_for_nudge
  split
  · dsimp only
    split_ifs <;> rfl
  · rfl

theorem check_state_stats (m : Monitor) (now : ℚ) :
    (check_for_nudge m now).1.daily_stats = m.daily_stats := by
  unfold check_for_nudge
  split
  · dsimp only
    split_ifs <;> rfl
  · rfl

theorem check_state_last_reset (m : Monitor) (now : ℚ) :
    (check_for_nudge m now).1.last_reset = m.last_reset := by
  unfold check_for_nudge
  split
  · dsimp only
    split_ifs <;> rfl
  · rfl

theorem truthySite_some (s : String) : truthySite (some s) = true ↔ s ≠ "" := by
  simp [truthySite]

theorem truthySite_true_iff (o : Option String) :
    truthySite o = true ↔ ∃ s, o = some s ∧ s ≠ "" := by
  cases o with
  | none => simp [truthySite]
  | some s => simp [truthySite]

theorem end_session_clears (m : Monitor) (now : ℚ) (s : String) (u : ℚ)
    (hc : m.current_site = some s) (hs : s ≠ "") (hu : m.session_start = some u) :
    end_session m now =
      { m with
          daily_stats := statsAdd m.daily_stats s (now - u)
          current_site := none
          session_start := none } := by
  obtain ⟨ts, cs, ss, ln, ds, lr⟩ := m
  dsimp only at hc hu ⊢
  subst hc
  subst hu
  simp only [end_session]
  rw [if_neg hs]

/-- Full characterization of `check_for_nudge` on a state with an open session
on a tracked site. -/
theorem check_spec (m : Monitor) (site : String) (start now : ℚ)
    (cfg : SiteConfig)
    (hsite : m.current_site = some site) (hne : site ≠ "")
    (hstart : m.session_start = some start)
    (hcfg : m.tracked_sites.lookup site = some cfg) :
    check_for_nudge m now =
      if statsGet m.daily_stats site + (now - start) ≥ cfg.daily_limit ∧
          cfg.hard_block = true then
        (m, some (Event.block site
          (statsGet m.daily_stats site + (now - start)) cfg.daily_limit))
      else if now - start ≥ cfg.nudge_interval ∧
          minutes_since_last m now ≥ cfg.nudge_interval then
        ({ m with last_nudge_time := some now },
          some
            (if cfg.daily_limit -
                (statsGet m.daily_stats site + (now - start)) ≤ 0 then
              Event.nudge .warning .exceededLimit site (now - start)
                (statsGet m.daily_stats site + (now - start)) cfg.daily_limit
            else if cfg.daily_limit -
                (statsGet m.daily_stats site + (now - start)) ≤ 10 then
              Event.nudge .warning .runningLow site (now - start)
                (statsGet m.daily_stats site + (now - start)) cfg.daily_limit
            else
              Event.nudge .info .friendlyReminder site (now - start)
                (statsGet m.daily_stats site + (now - start)) cfg.daily_limit))
      else (m, none) := by
  obtain ⟨ts, cs, ss, ln, ds, lr⟩ := m
  dsimp only at hsite hstart hcfg ⊢
  subst hsite
  subst hstart
  simp only [check_for_nudge]
  rw [if_neg hne, hcfg]
  rfl

theorem update_session_open (m : Monitor) (d : Option String) (now : ℚ)
    (hd : truthySite d = true) (hcur : truthySite m.current_site = false) :
    update_session m d now =
      ({ rolloverCheck m now with
          current_site := d, session_start := some now }, none) := by
  unfold update_session
  dsimp only
  rw [if_pos ⟨hd, by rw [rolloverCheck_current]; exact hcur⟩]

theorem update_session_switch_none (m : Monitor) (now : ℚ)
    (hcur : truthySite m.current_site = true) :
    update_session m none now = (end_session (rolloverCheck m now) now, none) := by
  obtain ⟨s, hs, hsne⟩ := (truthySite_true_iff _).mp hcur
  unfold update_session
  dsimp only
  rw [if_neg (by simp [truthySite])]
  rw [if_pos ⟨by rw [rolloverCheck_current]; exact hcur,
    by rw [rolloverCheck_current, hs]; simp⟩]
  rw [if_neg (by simp [truthySite])]

theorem update_session_switch_some (m : Monitor) (now : ℚ) (s2 : String)
    (hcur : truthySite m.current_site = true)
    (hne2 : some s2 ≠ m.current_site) (hs2 : s2 ≠ "") :
    update_session m (some s2) now =
      ({ end_session (rolloverCheck m now) now with
          current_site := some s2, session_start := some now }, none) := by
  unfold update_session
  dsimp only
  rw [if_neg (by
    rintro ⟨-, hf⟩
    rw [rolloverCheck_current, hcur] at hf
    simp at hf)]
  rw [if_pos ⟨by rw [rolloverCheck_current]; exact hcur,
    by rw [rolloverCheck_current]; exact hne2⟩]
  rw [if_pos ((truthySite_some s2).mpr hs2)]

theorem update_session_ongoing (m : Monitor) (site : String) (now : ℚ)
    (hsite : m.current_site = some site) (hne : site ≠ "") :
    update_session m (some site) now =
      check_for_nudge (rolloverCheck m now) now := by
  unfold update_session
  dsimp only
  rw [if_neg (by
    rintro ⟨-, hf⟩
    rw [rolloverCheck_current, hsite] at hf
    simp [truthySite, hne] at hf)]
  rw [if_neg (by
    rintro ⟨-, hf⟩
    rw [rolloverCheck_current, hsite] at hf
    exact hf rfl)]
  rw [if_pos (by
    rw [rolloverCheck_current, hsite]
    exact (truthySite_some site).mpr hne)]

theorem update_session_idle (m : Monitor) (now : ℚ)
    (hcur : truthySite m.current_site = false) :
    update_session m none now = (rolloverCheck m now, none) := by
  unfold update_session
  dsimp only
  rw [if_neg (by rintro ⟨hf, -⟩; simp [truthySite] at hf)]
  rw [if_neg (by
    rintro ⟨hf, -⟩
    rw [rolloverCheck_current, hcur] at hf
    simp at hf)]
  rw [if_neg (by
    intro hf
    rw [rolloverCheck_current, hcur] at hf
    simp at hf)]

theorem update_session_last_reset (m : Monitor) (d : Option String) (now : ℚ) :
    (update_session m d now).1.last_reset = dateOf now := by
  unfold update_session
  dsimp only
  split_ifs <;>
    simp [end_session_last_reset, check_state_last_reset, rolloverCheck_last_reset]


theorem dateOf_zero : dateOf 0 = 0 := dateOf_eq_zero 0 (by norm_num) (by norm_num)

theorem mC1_eval :
    mC1 = ⟨[("youtube.com", ⟨60, 1000, false⟩)], some "youtube.com", some 0,
      none, [], 0⟩ := by
  simp [mC1, initMonitor, load_config, cfgC1, update_session, rolloverCheck,
    truthySite, dateOf_zero]

theorem mC3a_eval :
    mC3a = ⟨defaultConfig.tracked_sites, some "youtube.com", some 10,
      none, [], 0⟩ := by
  have h10 : dateOf 10 = 0 := dateOf_eq_zero 10 (by norm_num) (by norm_num)
  simp [mC3a, initMonitor, load_config, update_session, rolloverCheck,
    truthySite, h10]

theorem mC3b_eval :
    mC3b = ⟨defaultConfig.tracked_sites, none, none, none,
      [("youtube.com", -6)], 0⟩ := by
  have h4 : dateOf 4 = 0 := dateOf_eq_zero 4 (by norm_num) (by norm_num)
  simp [mC3b, mC3a_eval, update_session, rolloverCheck, end_session, statsAdd,
    statsGet, truthySite, h4, List.lookup]
  norm_num

theorem mC3c_eval :
    mC3c = ⟨defaultConfig.tracked_sites, none, none, none,
      [("youtube.com", 10)], 0⟩ := by
  have h10 : dateOf 10 = 0 := dateOf_eq_zero 10 (by norm_num) (by norm_num)
  simp [mC3c, initMonitor, load_config, update_session, rolloverCheck,
    end_session, statsAdd, statsGet, truthySite, dateOf_zero, h10, List.lookup]


theorem mC4a_eval :
    mC4a = ⟨defaultConfig.tracked_sites, some "youtube.com", some 0,
      none, [], 0⟩ := by
  simp [mC4a, initMonitor, load_config, update_session, rolloverCheck,
    truthySite, dateOf_zero]

theorem mC4b_eval :
    mC4b = ⟨defaultConfig.tracked_sites, some "youtube.com", some 0,
      some 20, [], 0⟩ := by
  have h20 : dateOf 20 = 0 := dateOf_eq_zero 20 (by norm_num) (by norm_num)
  simp [mC4b, mC4a_eval, update_session, rolloverCheck, check_for_nudge,
    minutes_since_last, statsGet, statsAdd, truthySite, h20, List.lookup,
    defaultConfig]
  norm_num

theorem mC4c_eval :
    mC4c = ⟨defaultConfig.tracked_sites, some "reddit.com", some 21,
      some 20, [("youtube.com", 21)], 0⟩ := by
  have h21 : dateOf 21 = 0 := dateOf_eq_zero 21 (by norm_num) (by norm_num)
  simp [mC4c, mC4b_eval, update_session, rolloverCheck, end_session, statsAdd,
    statsGet, truthySite, h21, List.lookup]


theorem mC5_eval :
    mC5 = ⟨defaultConfig.tracked_sites, none, none, none,
      [("youtube.com", 30)], 0⟩ := by
  have h30 : dateOf 30 = 0 := dateOf_eq_zero 30 (by norm_num) (by norm_num)
  simp [mC5, initMonitor, load_config, update_session, rolloverCheck,
    end_session, statsAdd, statsGet, truthySite, dateOf_zero, h30, List.lookup]


theorem mC6_eval :
    mC6 = ⟨defaultConfig.tracked_sites, some "youtube.com", some 8,
      none, [("youtube.com", 5)], 0⟩ := by
  have h5 : dateOf 5 = 0 := dateOf_eq_zero 5 (by norm_num) (by norm_num)
  have h8 : dateOf 8 = 0 := dateOf_eq_zero 8 (by norm_num) (by norm_num)
  simp [mC6, initMonitor, load_config, update_session, rolloverCheck,
    end_session, statsAdd, statsGet, truthySite, dateOf_zero, h5, h8,
    List.lookup]


theorem mC8_eval :
    mC8 = ⟨defaultConfig.tracked_sites, some "youtube.com", some 0,
      none, [], 0⟩ := by
  simp [mC8, initMonitor, load_config, update_session, rolloverCheck,
    truthySite, dateOf_zero]


theorem end_session_of_start_none (m : Monitor) (now : ℚ)
    (h : m.session_start = none) : end_session m now = m := by
  obtain ⟨ts, cs, ss, ln, ds, lr⟩ := m
  dsimp only at h
  subst h
  cases cs <;> rfl

theorem update_session_switch_out (m : Monitor) (d : Option String) (now : ℚ)
    (hcur : truthySite m.current_site = true) (hd : d ≠ m.current_site)
    (hdf : truthySite d = false) :
    update_session m d now = (end_session (rolloverCheck m now) now, none) := by
  unfold update_session
  dsimp only
  rw [if_neg (by rintro ⟨h1, -⟩; rw [hdf] at h1; simp at h1)]
  rw [if_pos ⟨by rw [rolloverCheck_current]; exact hcur,
    by rw [rolloverCheck_current]; exact hd⟩]
  rw [if_neg (by rw [hdf]; simp)]

theorem update_session_noop (m : Monitor) (d : Option String) (now : ℚ)
    (hdf : truthySite d = false) (hcf : truthySite m.current_site = false) :
    update_session m d now = (rolloverCheck m now, none) := by
  unfold update_session
  dsimp only
  rw [if_neg (by rintro ⟨h1, -⟩; rw [hdf] at h1; simp at h1)]
  rw [if_neg (by rintro ⟨h1, -⟩; rw [rolloverCheck_current, hcf] at h1; simp at h1)]
  rw [if_neg (by intro h1; rw [rolloverCheck_current, hcf] at h1; simp at h1)]

theorem update_session_pairing (m : Monitor) (d : Option String) (now : ℚ)
    (h : m.current_site = none ↔ m.session_start = none) :
    ((update_session m d now).1.current_site = none ↔
      (update_session m d now).1.session_start = none) := by
  by_cases hcur : truthySite m.current_site = true
  · obtain ⟨s, hs, hsne⟩ := (truthySite_true_iff _).mp hcur
    have hss : ∃ u, m.session_start = some u := by
      rcases hso : m.session_start with _ | u
      · exfalso
        rw [hs] at h
        rw [hso] at h
        simp at h
      · exact ⟨u, rfl⟩
    obtain ⟨u, hu⟩ := hss
    by_cases hdc : d = m.current_site
    · rw [hdc, hs, update_session_ongoing m s now hs hsne]
      rw [check_state_current, check_state_start, rolloverCheck_current,
        rolloverCheck_start, hs, hu]
      simp
    · by_cases hdt : truthySite d = true
      · obtain ⟨s2, hs2, hs2ne⟩ := (truthySite_true_iff _).mp hdt
        rw [hs2, update_session_switch_some m now s2 hcur
          (by rw [← hs2]; exact hdc) hs2ne]
        simp
      · have hdf : truthySite d = false := by simpa using hdt
        rw [update_session_switch_out m d now hcur hdc hdf]
        rw [end_session_clears (rolloverCheck m now) now s u
          (by rw [rolloverCheck_current]; exact hs) hsne
          (by rw [rolloverCheck_start]; exact hu)]
        simp
  · have hcf : truthySite m.current_site = false := by simpa using hcur
    by_cases hdt : truthySite d = true
    · obtain ⟨s2, hs2, -⟩ := (truthySite_true_iff _).mp hdt
      rw [update_session_open m d now hdt hcf]
      simp [hs2]
    · have hdf : truthySite d = false := by simpa using hdt
      rw [update_session_noop m d now hdf hcf]
      rw [rolloverCheck_current, rolloverCheck_start]
      exact h

theorem update_session_stats_invariant (m : Monitor) (d : Option String)
    (now t : ℚ)
    (hstats : ∀ p ∈ m.daily_stats, 0 ≤ p.2)
    (hsess : ∀ u, m.session_start = some u → u ≤ t) (ht : t ≤ now) :
    (∀ p ∈ (update_session m d now).1.daily_stats, 0 ≤ p.2) ∧
    (∀ u, (update_session m d now).1.session_start = some u → u ≤ now) := by
  have hstats2 : ∀ p ∈ (rolloverCheck m now).daily_stats, 0 ≤ p.2 := by
    unfold rolloverCheck
    split
    · simp
    · exact hstats
  by_cases hcur : truthySite m.current_site = true
  · obtain ⟨s, hs, hsne⟩ := (truthySite_true_iff _).mp hcur
    by_cases hdc : d = m.current_site
    · rw [hdc, hs, update_session_ongoing m s now hs hsne]
      rw [check_state_stats, check_state_start, rolloverCheck_start]
      refine ⟨hstats2, ?_⟩
      intro u hu
      exact le_trans (hsess u hu) ht
    · have key : ∀ p ∈ (end_session (rolloverCheck m now) now).daily_stats,
          0 ≤ p.2 := by
        rcases hso : m.session_start with _ | u
        · rw [end_session_of_start_none _ now
            (by rw [rolloverCheck_start]; exact hso)]
          exact hstats2
        · rw [end_session_clears (rolloverCheck m now) now s u
            (by rw [rolloverCheck_current]; exact hs) hsne
            (by rw [rolloverCheck_start]; exact hso)]
          dsimp only
          apply statsAdd_nonneg _ _ _ hstats2
          have := hsess u hso
          linarith
      by_cases hdt : truthySite d = true
      · obtain ⟨s2, hs2, hs2ne⟩ := (truthySite_true_iff _).mp hdt
        rw [hs2, update_session_switch_some m now s2 hcur
          (by rw [← hs2]; exact hdc) hs2ne]
        refine ⟨key, ?_⟩
        intro u hu
        simp at hu
        rw [← hu]
      · have hdf : truthySite d = false := by simpa using hdt
        rw [update_session_switch_out m d now hcur hdc hdf]
        refine ⟨key, ?_⟩
        intro u hu
        rcases hso : m.session_start with _ | u0
        · rw [end_session_of_start_none _ now
            (by rw [rolloverCheck_start]; exact hso), rolloverCheck_start,
            hso] at hu
          simp at hu
        · rw [end_session_clears (rolloverCheck m now) now s u0
            (by rw [rolloverCheck_current]; exact hs) hsne
            (by rw [rolloverCheck_start]; exact hso)] at hu
          simp at hu
  · have hcf : truthySite m.current_site = false := by simpa using hcur
    by_cases hdt : truthySite d = true
    · rw [update_session_open m d now hdt hcf]
      refine ⟨hstats2, ?_⟩
      intro u hu
      simp at hu
      rw [← hu]
    · have hdf : truthySite d = false := by simpa using hdt
      rw [update_session_noop m d now hdf hcf]
      rw [rolloverCheck_start]
      refine ⟨hstats2, ?_⟩
      intro u hu
      exact le_trans (hsess u hu) ht

theorem reachableAt_invariant (m : Monitor) (t : ℚ) (h : ReachableAt m t) :
    (∀ p ∈ m.daily_stats, 0 ≤ p.2) ∧
    (∀ u, m.session_start = some u → u ≤ t) := by
  induction h with
  | init file now => exact ⟨by simp [initMonitor], by simp [initMonitor]⟩
  | step m t d now hr hle ih =>
      exact update_session_stats_invariant m d now t ih.1 ih.2 hle

theorem map_pair_proj (l : List (String × ℚ)) (f : String → ℚ → SiteSummary)
    (hf : ∀ s v, (f s v).time_spent = v) :
    (l.map (fun p => (p.1, f p.1 p.2))).map (fun q => (q.1, q.2.time_spent)) =
      l := by
  induction l with
  | nil => rfl
  | cons a t ih => simp [ih, hf]

theorem summary_sites_lookup (m : Monitor) (now : ℚ) (site : String) :
    (get_daily_summary m now).sites.lookup site =
      (m.daily_stats.lookup site).map (fun v =>
        ({ time_spent := v
           limit := ((m.tracked_sites.lookup site).getD ⟨0, 0, false⟩).daily_limit
           percentage :=
             if ((m.tracked_sites.lookup site).getD ⟨0, 0, false⟩).daily_limit > 0
             then v / ((m.tracked_sites.lookup site).getD ⟨0, 0, false⟩).daily_limit * 100
             else 0
           over_limit :=
             decide (v > ((m.tracked_sites.lookup site).getD ⟨0, 0, false⟩).daily_limit) } :
          SiteSummary)) := by
  unfold get_daily_summary
  dsimp only
  exact lookup_map_pair m.daily_stats
    (fun s v =>
      ({ time_spent := v
         limit := ((m.tracked_sites.lookup s).getD ⟨0, 0, false⟩).daily_limit
         percentage :=
           if ((m.tracked_sites.lookup s).getD ⟨0, 0, false⟩).daily_limit > 0
           then v / ((m.tracked_sites.lookup s).getD ⟨0, 0, false⟩).daily_limit * 100
           else 0
         over_limit :=
           decide (v > ((m.tracked_sites.lookup s).getD ⟨0, 0, false⟩).daily_limit) } :
        SiteSummary)) site


/-! Claim theorems. -/

/-- C1 counterexample: the claim treats `minutes_since_last_nudge` as
effectively infinite when no nudge has fired, so with `nudge_interval = 1000`
and a session of 1000 minutes it predicts a NUDGE; the code uses the finite
sentinel 999, so the reachable state `mC1` polled at instant 1000 produces no
event although the session gate holds and no prior nudge exists. -/
theorem C1_counterexample :
    Reachable mC1 ∧
    mC1.last_nudge_time = none ∧
    mC1.session_start = some 0 ∧
    mC1.tracked_sites.lookup "youtube.com" = some ⟨60, 1000, false⟩ ∧
    (1000 : ℚ) - 0 ≥ 1000 ∧
    (update_session mC1 (some "youtube.com") 1000).2 = none := by
  refine ⟨Reachable.step _ _ _ (Reachable.init (some cfgC1) 0),
    by rw [mC1_eval], by rw [mC1_eval], ?_, by norm_num, ?_⟩
  · rw [mC1_eval]
    simp [List.lookup]
  · have h1000 : dateOf 1000 = 0 := dateOf_eq_zero 1000 (by norm_num) (by norm_num)
    rw [mC1_eval]
    rw [update_session_ongoing _ "youtube.com" 1000 rfl (by decide)]
    rw [rolloverCheck_eq_self _ 1000 (by rw [h1000])]
    rw [check_spec _ "youtube.com" 0 1000 ⟨60, 1000, false⟩ rfl (by decide)
      rfl (by simp [List.lookup])]
    rw [if_neg (by simp), if_neg ?_]
    rintro ⟨-, hmsl⟩
    simp [minutes_since_last] at hmsl
    norm_num at hmsl

/-- C1 (amended): on an ongoing-session poll, with `minutes_since_last_nudge`
given by the finite sentinel 999 when no prior nudge exists, a NUDGE is
produced exactly when the hard-block condition does not hold and both
`session_minutes >= nudge_interval` and
`minutes_since_last_nudge >= nudge_interval`; on fire `last_nudge_time` is set
to `now`, and when no event fires the state is unchanged, so no nudge fires
before the session has lasted `nudge_interval` minutes and, after a fire, none
fires again until `minutes_since_last_nudge` reaches `nudge_interval`. -/
theorem C1_nudge_gate (m : Monitor) (site : String) (start now : ℚ)
    (cfg : SiteConfig)
    (hsite : m.current_site = some site) (hne : site ≠ "")
    (hstart : m.session_start = some start)
    (hcfg : m.tracked_sites.lookup site = some cfg) :
    (isNudge (check_for_nudge m now).2 = true ↔
      (¬(statsGet m.daily_stats site + (now - start) ≥ cfg.daily_limit ∧
          cfg.hard_block = true) ∧
        now - start ≥ cfg.nudge_interval ∧
        minutes_since_last m now ≥ cfg.nudge_interval)) ∧
    (isNudge (check_for_nudge m now).2 = true →
      (check_for_nudge m now).1.last_nudge_time = some now) ∧
    ((check_for_nudge m now).2 = none → (check_for_nudge m now).1 = m) := by
  rw [check_spec m site start now cfg hsite hne hstart hcfg]
  split_ifs with hb hg h1 h2
  · exact ⟨by simp [isNudge, hb], by simp [isNudge], by simp⟩
  · exact ⟨iff_of_true rfl ⟨hb, hg.1, hg.2⟩, fun _ => rfl,
      fun hn => absurd hn (by simp)⟩
  · exact ⟨iff_of_true rfl ⟨hb, hg.1, hg.2⟩, fun _ => rfl,
      fun hn => absurd hn (by simp)⟩
  · exact ⟨iff_of_true rfl ⟨hb, hg.1, hg.2⟩, fun _ => rfl,
      fun hn => absurd hn (by simp)⟩
  · refine ⟨iff_of_false (by simp [isNudge]) ?_, by simp [isNudge], fun _ => rfl⟩
    rintro ⟨-, ha, hb2⟩
    exact hg ⟨ha, hb2⟩

/-- C1 witness: scenario A at t = 15 on the default youtube.com config
produces a nudge. -/
theorem C1_nudge_gate_witness :
    isNudge (check_for_nudge mC4a 15).2 = true :=
  (C1_nudge_gate mC4a "youtube.com" 0 15 ⟨60, 15, false⟩
      (by rw [mC4a_eval]) (by decide) (by rw [mC4a_eval])
      (by rw [mC4a_eval]; simp [defaultConfig, List.lookup])).1.mpr
    ⟨by
        rw [mC4a_eval]
        simp [statsGet],
      by norm_num,
      by rw [mC4a_eval]; simp [minutes_since_last]; norm_num⟩

/-- C2: on an ongoing-session poll, a BLOCK event is produced if and only if
`total_today >= daily_limit` and `hard_block` holds; the BLOCK branch has
priority over the nudge gate, its emission leaves the entire monitor state
(including `last_nudge_time`) unchanged, and while the condition holds it
re-fires on every later poll. -/
theorem C2_block (m : Monitor) (site : String) (start now : ℚ)
    (cfg : SiteConfig)
    (hsite : m.current_site = some site) (hne : site ≠ "")
    (hstart : m.session_start = some start)
    (hcfg : m.tracked_sites.lookup site = some cfg) :
    ((check_for_nudge m now).2 =
        some (Event.block site
          (statsGet m.daily_stats site + (now - start)) cfg.daily_limit) ↔
      (statsGet m.daily_stats site + (now - start) ≥ cfg.daily_limit ∧
        cfg.hard_block = true)) ∧
    (statsGet m.daily_stats site + (now - start) ≥ cfg.daily_limit →
      cfg.hard_block = true →
      (check_for_nudge m now).1 = m ∧
      ∀ now2, now ≤ now2 →
        (check_for_nudge m now2).2 =
          some (Event.block site
            (statsGet m.daily_stats site + (now2 - start)) cfg.daily_limit)) := by
  constructor
  · rw [check_spec m site start now cfg hsite hne hstart hcfg]
    split_ifs with hb hg h1 h2
    · simp [hb]
    · exact iff_of_false (by simp) hb
    · exact iff_of_false (by simp) hb
    · exact iff_of_false (by simp) hb
    · simp [hb]
  · intro h1 h2
    constructor
    · rw [check_spec m site start now cfg hsite hne hstart hcfg,
        if_pos ⟨h1, h2⟩]
    · intro now2 hn2
      rw [check_spec m site start now2 cfg hsite hne hstart hcfg,
        if_pos ⟨by linarith, h2⟩]

/-- C2 witness: scenario B with `hard_block = true` at t = 15: 55 prior
minutes plus a 15-minute session exceed the limit 60, so a BLOCK fires and
the state is unchanged. -/
theorem C2_block_witness :
    (check_for_nudge mC2 15).2 =
      some (Event.block "youtube.com"
        (statsGet mC2.daily_stats "youtube.com" + (15 - 0)) 60) ∧
    (check_for_nudge mC2 15).1 = mC2 :=
  have hb := C2_block mC2 "youtube.com" 0 15 ⟨60, 15, true⟩ rfl (by decide)
    rfl (by simp [mC2, cfgC2, List.lookup])
  have hcond : statsGet mC2.daily_stats "youtube.com" + ((15 : ℚ) - 0) ≥ 60 := by
    simp [mC2, statsGet, List.lookup]
    norm_num
  ⟨hb.1.mpr ⟨hcond, rfl⟩, (hb.2 hcond rfl).1⟩

/-- C7: when the nudge gate passes (and the hard-block branch did not fire),
the emitted event has, with `time_remaining = daily_limit - total_today`:
severity WARNING and the exceeded-limit message if `time_remaining <= 0`,
severity WARNING and the running-low message if `0 < time_remaining <= 10`,
and severity INFO and the friendly-reminder message if `time_remaining > 10`. -/
theorem C7_severity (m : Monitor) (site : String) (start now : ℚ)
    (cfg : SiteConfig)
    (hsite : m.current_site = some site) (hne : site ≠ "")
    (hstart : m.session_start = some start)
    (hcfg : m.tracked_sites.lookup site = some cfg)
    (hnb : ¬(statsGet m.daily_stats site + (now - start) ≥ cfg.daily_limit ∧
      cfg.hard_block = true))
    (hg1 : now - start ≥ cfg.nudge_interval)
    (hg2 : minutes_since_last m now ≥ cfg.nudge_interval) :
    (cfg.daily_limit - (statsGet m.daily_stats site + (now - start)) ≤ 0 →
      (check_for_nudge m now).2 =
        some (Event.nudge .warning .exceededLimit site (now - start)
          (statsGet m.daily_stats site + (now - start)) cfg.daily_limit)) ∧
    (0 < cfg.daily_limit - (statsGet m.daily_stats site + (now - start)) →
      cfg.daily_limit - (statsGet m.daily_stats site + (now - start)) ≤ 10 →
      (check_for_nudge m now).2 =
        some (Event.nudge .warning .runningLow site (now - start)
          (statsGet m.daily_stats site + (now - start)) cfg.daily_limit)) ∧
    (10 < cfg.daily_limit - (statsGet m.daily_stats site + (now - start)) →
      (check_for_nudge m now).2 =
        some (Event.nudge .info .friendlyReminder site (now - start)
          (statsGet m.daily_stats site + (now - start)) cfg.daily_limit)) := by
  rw [check_spec m site start now cfg hsite hne hstart hcfg,
    if_neg hnb, if_pos ⟨hg1, hg2⟩]
  refine ⟨fun h0 => ?_, fun hlo hhi => ?_, fun h10 => ?_⟩
  · rw [if_pos h0]
  · rw [if_neg (by linarith), if_pos hhi]
  · rw [if_neg (by linarith), if_neg (by linarith)]

/-- C7 witness: scenario A at t = 15: `time_remaining = 45 > 10`, so the
fired nudge is INFO with the friendly-reminder message. -/
theorem C7_severity_witness :
    (check_for_nudge mC4a 15).2 =
      some (Event.nudge .info .friendlyReminder "youtube.com" (15 - 0)
        (statsGet mC4a.daily_stats "youtube.com" + (15 - 0)) 60) :=
  (C7_severity mC4a "youtube.com" 0 15 ⟨60, 15, false⟩
      (by rw [mC4a_eval]) (by decide) (by rw [mC4a_eval])
      (by rw [mC4a_eval]; simp [defaultConfig, List.lookup])
      (by simp) (by norm_num)
      (by rw [mC4a_eval]; simp [minutes_since_last]; norm_num)).2.2
    (by rw [mC4a_eval]; simp [statsGet]; norm_num)


/-- C3 counterexample: the code does not clamp a negative duration.  Opening
a session at instant 10 and polling at instant 4 after a backward clock jump
folds the raw duration -6 into the accumulator, producing a reachable state
whose youtube.com total is negative. -/
theorem C3_counterexample :
    Reachable mC3b ∧
    statsGet mC3b.daily_stats "youtube.com" = -6 ∧
    ¬(0 ≤ statsGet mC3b.daily_stats "youtube.com") := by
  refine ⟨Reachable.step _ _ _ (Reachable.step _ _ _ (Reachable.init none 10)),
    ?_, ?_⟩
  · rw [mC3b_eval]
    simp [statsGet, List.lookup]
  · rw [mC3b_eval]
    simp [statsGet, List.lookup]

/-- C3 (amended): session durations are folded into the accumulator without
any clamping, so a backward clock jump can make a total negative (see the
counterexample); when every poll instant is at least the previous one — so
every closed duration is non-negative — all accumulator totals are
non-negative in every reachable state. -/
theorem C3_no_clamp (m : Monitor) (t : ℚ) (h : ReachableAt m t)
    (site : String) : 0 ≤ statsGet m.daily_stats site := by
  have hinv := (reachableAt_invariant m t h).1
  unfold statsGet
  rcases ho : m.daily_stats.lookup site with _ | v
  · simp
  · simp only [Option.getD]
    have hmem : (site, v) ∈ m.daily_stats := lookup_some_mem _ _ _ ho
    exact hinv (site, v) hmem

/-- C3 witness: after a monotone trace closing a ten-minute session the
youtube.com total is non-negative. -/
theorem C3_no_clamp_witness : 0 ≤ statsGet mC3c.daily_stats "youtube.com" :=
  C3_no_clamp mC3c 10
    (ReachableAt.step _ 0 none 10
      (ReachableAt.step _ 0 (some "youtube.com") 0
        (ReachableAt.init none 0) (le_refl 0))
      (by norm_num))
    "youtube.com"

/-- C4 counterexample: after the first nudge on youtube.com at instant 20,
switching to reddit.com at instant 21 leaves `last_nudge_time = 20`; the
claim says the site change resets it to absent. -/
theorem C4_counterexample :
    Reachable mC4c ∧
    mC4b.current_site = some "youtube.com" ∧
    mC4b.last_nudge_time = some 20 ∧
    mC4c.current_site = some "reddit.com" ∧
    mC4c.last_nudge_time = some 20 ∧
    mC4c.last_nudge_time ≠ none := by
  refine ⟨Reachable.step _ _ _ (Reachable.step _ _ _ (Reachable.step _ _ _
    (Reachable.init none 0))), ?_, ?_, ?_, ?_, ?_⟩
  · rw [mC4b_eval]
  · rw [mC4b_eval]
  · rw [mC4c_eval]
  · rw [mC4c_eval]
  · rw [mC4c_eval]
    simp

/-- C4 (amended): a site change does not clear `last_nudge_time` (any
detected site other than the current one leaves it untouched); nevertheless,
when the recorded last nudge predates the session start — as holds for a
session opened after a nudge in an earlier session — the nudge gate of the
new session reduces to `session_minutes >= nudge_interval` alone, because
`minutes_since_last_nudge` then dominates `session_minutes`. -/
theorem C4_no_reset (m : Monitor) (site : String) (start now t0 : ℚ)
    (cfg : SiteConfig)
    (hsite : m.current_site = some site) (hne : site ≠ "")
    (hstart : m.session_start = some start)
    (hcfg : m.tracked_sites.lookup site = some cfg)
    (hlast : m.last_nudge_time = some t0) (hle : t0 ≤ start)
    (hnb : ¬(statsGet m.daily_stats site + (now - start) ≥ cfg.daily_limit ∧
      cfg.hard_block = true)) :
    (isNudge (check_for_nudge m now).2 = true ↔
      now - start ≥ cfg.nudge_interval) ∧
    (∀ d now2, d ≠ some site →
      (update_session m d now2).1.last_nudge_time = m.last_nudge_time) := by
  constructor
  · rw [check_spec m site start now cfg hsite hne hstart hcfg, if_neg hnb]
    have hmsl : minutes_since_last m now = now - t0 := by
      unfold minutes_since_last
      rw [hlast]
    constructor
    · intro hn
      by_cases hg : now - start ≥ cfg.nudge_interval ∧
          minutes_since_last m now ≥ cfg.nudge_interval
      · exact hg.1
      · rw [if_neg hg] at hn
        simp [isNudge] at hn
    · intro hsess
      rw [if_pos ⟨hsess, by rw [hmsl]; linarith⟩]
      split_ifs <;> rfl
  · intro d now2 hd
    have hcur : truthySite m.current_site = true := by
      rw [hsite]
      exact (truthySite_some site).mpr hne
    have hdc : d ≠ m.current_site := by rw [hsite]; exact hd
    by_cases hdt : truthySite d = true
    · obtain ⟨s2, hs2, hs2ne⟩ := (truthySite_true_iff _).mp hdt
      rw [hs2, update_session_switch_some m now2 s2 hcur
        (by rw [← hs2]; exact hdc) hs2ne]
      dsimp only
      rw [end_session_nudge_time, rolloverCheck_nudge_time]
    · have hdf : truthySite d = false := by simpa using hdt
      rw [update_session_switch_out m d now2 hcur hdc hdf]
      dsimp only
      rw [end_session_nudge_time, rolloverCheck_nudge_time]

/-- C4 witness: in the reddit session opened at 21 after a nudge at 20, the
nudge at instant 31 fires exactly by the session gate, and a detected switch
away preserves `last_nudge_time`. -/
theorem C4_no_reset_witness :
    isNudge (check_for_nudge mC4c 31).2 = true ∧
    (update_session mC4c (some "youtube.com") 22).1.last_nudge_time =
      mC4c.last_nudge_time :=
  have h := C4_no_reset mC4c "reddit.com" 21 31 20 ⟨30, 10, false⟩
    (by rw [mC4c_eval]) (by decide) (by rw [mC4c_eval])
    (by rw [mC4c_eval]; simp [defaultConfig, List.lookup])
    (by rw [mC4c_eval]) (by norm_num)
    (by
      rw [mC4c_eval]
      simp [statsGet, List.lookup])
  ⟨h.1.mpr (by norm_num), h.2 (some "youtube.com") 22 (by simp)⟩

/-- C10: in every reachable monitor state, `current_site` is absent exactly
when `session_start` is absent: sessions open and close the two fields
together, so an open session always has its start instant available. -/
theorem C10_pairing (m : Monitor) (h : Reachable m) :
    (m.current_site = none ↔ m.session_start = none) := by
  induction h with
  | init file now => simp [initMonitor]
  | step m d now hr ih => exact update_session_pairing m d now ih

/-- C10 witness: the pairing holds at a freshly initialized monitor. -/
theorem C10_pairing_witness :
    ((initMonitor none 0).current_site = none ↔
      (initMonitor none 0).session_start = none) :=
  C10_pairing (initMonitor none 0) (Reachable.init none 0)


/-- C5 counterexample: `get_daily_summary` performs no rollover check.  With
30 minutes accumulated on day 0, querying the summary at instant 1440 (day 1)
still reports the day-0 totals, so totals for date D are visible in a result
produced after an operation observed a different current date. -/
theorem C5_counterexample :
    Reachable mC5 ∧
    mC5.last_reset = 0 ∧
    dateOf 1440 = 1 ∧
    (get_daily_summary mC5 1440).date = 1 ∧
    (get_daily_summary mC5 1440).sites.lookup "youtube.com" =
      some ⟨30, 60, 50, false⟩ := by
  have h1440 : dateOf 1440 = 1 := dateOf_eq_one 1440 (by norm_num) (by norm_num)
  refine ⟨Reachable.step _ _ _ (Reachable.step _ _ _ (Reachable.init none 0)),
    by rw [mC5_eval], h1440, by simp [get_daily_summary, h1440], ?_⟩
  rw [mC5_eval]
  simp [get_daily_summary, defaultConfig, List.lookup]
  norm_num

/-- C5 (amended): only `update_session` performs the rollover check: its
resulting state always carries `last_reset = dateOf now`, and on the first
poll that observes a date different from `last_reset` the old `daily_stats`
are discarded before any further processing (the poll behaves exactly as if
starting from an emptied accumulator stamped with the new date).
`get_daily_summary` performs no rollover check: its result is entirely
insensitive to `last_reset`, so stale totals stay visible until the next
`update_session` call. -/
theorem C5_rollover (m : Monitor) (d : Option String) (now : ℚ) (r : ℤ)
    (h : dateOf now ≠ m.last_reset) :
    (update_session m d now).1.last_reset = dateOf now ∧
    update_session m d now =
      update_session { m with daily_stats := [], last_reset := dateOf now }
        d now ∧
    get_daily_summary { m with last_reset := r } now =
      get_daily_summary m now := by
  refine ⟨update_session_last_reset m d now, ?_, rfl⟩
  have hr : rolloverCheck m now =
      rolloverCheck { m with daily_stats := [], last_reset := dateOf now }
        now := by
    unfold rolloverCheck
    rw [if_pos h, if_neg (by simp)]
  unfold update_session
  rw [hr]

/-- C5 witness: instantiated at the day-crossing poll of the counterexample
state. -/
theorem C5_rollover_witness :
    (update_session mC5 none 1440).1.last_reset = dateOf 1440 ∧
    get_daily_summary { mC5 with last_reset := 5 } 1440 =
      get_daily_summary mC5 1440 :=
  have h : dateOf 1440 ≠ mC5.last_reset := by
    rw [dateOf_eq_one 1440 (by norm_num) (by norm_num), mC5_eval]
    decide
  have hc := C5_rollover mC5 none 1440 5 h
  ⟨hc.1, hc.2.2⟩

/-- C6 counterexample: with 5 closed minutes on youtube.com and a session
open since instant 8, querying the summary at instant 18 reports
`time_spent = 5`, not the live total 15 that includes the open session. -/
theorem C6_counterexample :
    Reachable mC6 ∧
    mC6.current_site = some "youtube.com" ∧
    mC6.session_start = some 8 ∧
    statsGet mC6.daily_stats "youtube.com" + ((18 : ℚ) - 8) = 15 ∧
    (get_daily_summary mC6 18).sites.lookup "youtube.com" =
      some ⟨5, 60, 25 / 3, false⟩ ∧
    (5 : ℚ) ≠ 15 := by
  refine ⟨Reachable.step _ _ _ (Reachable.step _ _ _ (Reachable.step _ _ _
      (Reachable.init none 0))),
    by rw [mC6_eval], by rw [mC6_eval], ?_, ?_, by norm_num⟩
  · rw [mC6_eval]
    simp [statsGet, List.lookup]
    norm_num
  · rw [mC6_eval]
    simp [get_daily_summary, defaultConfig, List.lookup]
    norm_num

/-- C6 (amended): the nudge decision engine computes the live total — the
payload of every emitted NUDGE event carries
`total_today = closed total + elapsed open-session time` — while
`get_daily_summary` projects only the closed-session totals of
`daily_stats`, excluding any open session. -/
theorem C6_live_total (m : Monitor) (site : String) (start now : ℚ)
    (cfg : SiteConfig)
    (hsite : m.current_site = some site) (hne : site ≠ "")
    (hstart : m.session_start = some start)
    (hcfg : m.tracked_sites.lookup site = some cfg) :
    (∀ sev msg s2 sess tot lim,
      (check_for_nudge m now).2 = some (Event.nudge sev msg s2 sess tot lim) →
      tot = statsGet m.daily_stats site + (now - start) ∧
        sess = now - start) ∧
    (get_daily_summary m now).sites.map (fun p => (p.1, p.2.time_spent)) =
      m.daily_stats := by
  constructor
  · intro sev msg s2 sess tot lim hev
    rw [check_spec m site start now cfg hsite hne hstart hcfg] at hev
    split_ifs at hev with hb hg h1 h2
    all_goals dsimp only at hev
    all_goals first
      | (rw [Option.some.injEq, Event.nudge.injEq] at hev
         exact ⟨hev.2.2.2.2.1.symm, hev.2.2.2.1.symm⟩)
      | exact absurd hev (by simp)
  · unfold get_daily_summary
    dsimp only
    exact map_pair_proj m.daily_stats
      (fun s v =>
        ({ time_spent := v
           limit := ((m.tracked_sites.lookup s).getD ⟨0, 0, false⟩).daily_limit
           percentage :=
             if ((m.tracked_sites.lookup s).getD ⟨0, 0, false⟩).daily_limit > 0
             then v / ((m.tracked_sites.lookup s).getD ⟨0, 0, false⟩).daily_limit * 100
             else 0
           over_limit :=
             decide (v > ((m.tracked_sites.lookup s).getD ⟨0, 0, false⟩).daily_limit) } :
          SiteSummary))
      (fun s v => rfl)

/-- C6 witness: on the counterexample state the summary projection returns
exactly the closed totals. -/
theorem C6_live_total_witness :
    (get_daily_summary mC6 18).sites.map (fun p => (p.1, p.2.time_spent)) =
      mC6.daily_stats :=
  (C6_live_total mC6 "youtube.com" 8 18 ⟨60, 15, false⟩
      (by rw [mC6_eval]) (by decide) (by rw [mC6_eval])
      (by rw [mC6_eval]; simp [defaultConfig, List.lookup])).2

/-- C8 counterexample: open a session at instant 0 and shut down at instant
30: the shutdown path emits the summary without closing the session, so the
final summary is empty and the 30 open minutes appear nowhere — the opened
session is dropped rather than flushed. -/
theorem C8_counterexample :
    Reachable mC8 ∧
    mC8.current_site = some "youtube.com" ∧
    mC8.session_start = some 0 ∧
    mC8.daily_stats = [] ∧
    (shutdown_summary mC8 30).sites = [] := by
  refine ⟨Reachable.step _ _ _ (Reachable.init none 0), by rw [mC8_eval],
    by rw [mC8_eval], by rw [mC8_eval], ?_⟩
  rw [mC8_eval]
  simp [shutdown_summary, get_daily_summary]

/-- C8 (amended): a session is closed exactly once, on the poll cycle whose
detection transitions away from its site (here: to no site), folding the raw
elapsed duration into the accumulator and clearing the session fields; the
shutdown path is only the summary projection — there is no flush, so a
session still open at shutdown is not folded in and, when its site has no
closed time, is entirely absent from the final summary. -/
theorem C8_close_no_flush (m : Monitor) (site : String) (start now : ℚ)
    (hsite : m.current_site = some site) (hne : site ≠ "")
    (hstart : m.session_start = some start)
    (hdate : dateOf now = m.last_reset) :
    (update_session m none now).1.current_site = none ∧
    (update_session m none now).1.session_start = none ∧
    statsGet (update_session m none now).1.daily_stats site =
      statsGet m.daily_stats site + (now - start) ∧
    shutdown_summary m now = get_daily_summary m now ∧
    (m.daily_stats.lookup site = none →
      (shutdown_summary m now).sites.lookup site = none) := by
  have hcur : truthySite m.current_site = true := by
    rw [hsite]
    exact (truthySite_some site).mpr hne
  have hswitch := update_session_switch_out m none now hcur
    (by rw [hsite]; simp) (by simp [truthySite])
  rw [rolloverCheck_eq_self m now hdate] at hswitch
  rw [hswitch, end_session_clears m now site start hsite hne hstart]
  refine ⟨rfl, rfl, ?_, rfl, ?_⟩
  · exact statsGet_statsAdd_self m.daily_stats site (now - start)
  · intro hnone
    unfold shutdown_summary
    rw [summary_sites_lookup, hnone]
    rfl

/-- C8 witness: the close-on-transition clause applied to the session of the
counterexample state, closed at instant 30 by a no-site poll. -/
theorem C8_close_no_flush_witness :
    (update_session mC8 none 30).1.current_site = none ∧
    statsGet (update_session mC8 none 30).1.daily_stats "youtube.com" =
      statsGet mC8.daily_stats "youtube.com" + (30 - 0) :=
  have h := C8_close_no_flush mC8 "youtube.com" 0 30 (by rw [mC8_eval])
    (by decide) (by rw [mC8_eval])
    (by rw [dateOf_eq_zero 30 (by norm_num) (by norm_num), mC8_eval])
  ⟨h.1, h.2.2.1⟩

/-- C9 counterexample: `load_config` accepts a stored configuration with a
zero daily limit and a negative nudge interval unchanged — no validation or
rejection happens. -/
theorem C9_counterexample :
    load_config (some badConfig) = badConfig ∧
    (load_config (some badConfig)).tracked_sites.lookup "youtube.com" =
      some ⟨0, -5, false⟩ ∧
    ¬(0 < (⟨0, -5, false⟩ : SiteConfig).daily_limit ∧
      0 < (⟨0, -5, false⟩ : SiteConfig).nudge_interval) := by
  refine ⟨rfl, by simp [load_config, badConfig, List.lookup], ?_⟩
  rintro ⟨h1, -⟩
  dsimp only at h1
  norm_num at h1

/-- C9 (amended): loading performs no validation: a present configuration is
returned exactly as stored, whatever its values; only when the file is absent
is the built-in default written and used, and that default does satisfy
`daily_limit > 0` and `nudge_interval > 0` for every tracked site. -/
theorem C9_no_validation (c : Config) :
    load_config (some c) = c ∧
    load_config none = defaultConfig ∧
    ∀ p ∈ defaultConfig.tracked_sites,
      0 < p.2.daily_limit ∧ 0 < p.2.nudge_interval := by
  refine ⟨rfl, rfl, ?_⟩
  intro p hp
  simp [defaultConfig] at hp
  rcases hp with h | h | h | h <;> rw [h] <;> norm_num

/-- C9 witness: the bad configuration is loaded back unchanged. -/
theorem C9_no_validation_witness :
    load_config (some badConfig) = badConfig :=
  (C9_no_validation badConfig).1

end DoomScroll
